import Mathlib

/-!
Shallow embedding of the core of `ng-three-model-cropper`
(projects/model-cropper/src/lib): the geometry data model and predicates
(`types.ts`), the triangle-pruning cropper (`cheap-cropper.ts`), the
scene/transform engine (`ModelCropEngine`, current revision: the variant
with source resolution, magic-byte sniffing and fit-to-actual-bounds, as
required by the Angular service's API surface and documented in the
changelog entries 1.5.x/1.6.x), and the Angular adapter service
(`model-cropper.service.ts`).

JavaScript numbers are modelled as rationals (`ℚ`); out-of-range typed
array reads (which yield `undefined`/`NaN` in JS) are modelled with a `0`
default, noted at each use site.
-/

namespace ModelCropper

/-- Embeds `Vec3` from `types.ts`: a 3D vector of scalars. -/
structure Vec3 where
  x : ℚ
  y : ℚ
  z : ℚ
deriving DecidableEq, Repr

/-- Embeds `CropBoxConfig` from `types.ts`: six world-space scalars. -/
structure CropBoxConfig where
  minX : ℚ
  minY : ℚ
  minZ : ℚ
  maxX : ℚ
  maxY : ℚ
  maxZ : ℚ
deriving DecidableEq, Repr

/-- Embeds `MeshTransformConfig` from `types.ts`. -/
structure MeshTransformConfig where
  position : Vec3
  rotation : Vec3
deriving DecidableEq, Repr

/-- Embeds `DEFAULT_CROP_BOX` from `types.ts`. -/
def DEFAULT_CROP_BOX : CropBoxConfig :=
  { minX := -1, minY := -1, minZ := -1, maxX := 1, maxY := 1, maxZ := 1 }

/-- Embeds `DEFAULT_MESH_TRANSFORM` from `types.ts` (identity transform). -/
def DEFAULT_MESH_TRANSFORM : MeshTransformConfig :=
  { position := ⟨0, 0, 0⟩, rotation := ⟨0, 0, 0⟩ }

/-- Embeds `CropResult` from `types.ts`. -/
structure CropResult where
  success : Bool
  trianglesRemoved : ℕ
  trianglesKept : ℕ
  meshesProcessed : ℕ
deriving DecidableEq, Repr

/-- Embeds `LoadingState` from `types.ts`. -/
inductive LoadingState where
  | idle
  | loading
  | loaded
  | error
deriving DecidableEq, Repr

/-- Embeds `ModelFileType` from `types.ts`. -/
inductive ModelFileType where
  | glb
  | gltf
  | fbx
  | unknown
deriving DecidableEq, Repr

/-- Embeds `isPointInCropBox(x, y, z, box)` from `types.ts`:
`x >= box.minX && x <= box.maxX && y >= box.minY && y <= box.maxY &&
 z >= box.minZ && z <= box.maxZ`. -/
def isPointInCropBox (x y z : ℚ) (box : CropBoxConfig) : Bool :=
  decide (x ≥ box.minX) && decide (x ≤ box.maxX) &&
  decide (y ≥ box.minY) && decide (y ≤ box.maxY) &&
  decide (z ≥ box.minZ) && decide (z ≤ box.maxZ)

/-- JS `String.prototype.toLowerCase`, restricted to the ASCII range the
detection code relies on (`Char.toLower` lowers exactly `A`-`Z`). -/
def lowerAscii (s : String) : String :=
  ⟨s.data.map Char.toLower⟩

/-- JS `String.prototype.endsWith` (suffix match on the code points). -/
def jsEndsWith (s pat : String) : Bool :=
  List.isSuffixOf pat.data s.data

/-- Tests whether the first character list begins with the second
(helper for `jsIncludes`). -/
def beginsWith : List Char → List Char → Bool
  | _, [] => true
  | [], _ :: _ => false
  | a :: as, b :: bs => a == b && beginsWith as bs

/-- Tests whether the second character list occurs contiguously in the
first (helper for `jsIncludes`). -/
def containsSeq : List Char → List Char → Bool
  | [], pat => pat.isEmpty
  | a :: rest, pat => beginsWith (a :: rest) pat || containsSeq rest pat

/-- JS `String.prototype.includes` (substring containment). -/
def jsIncludes (s pat : String) : Bool :=
  containsSeq s.data pat.data

/-- Embeds `getModelFileType(url)` from `types.ts`: case-insensitive suffix match
on `.glb`, `.gltf`, `.fbx`, otherwise `unknown`. -/
def getModelFileType (url : String) : ModelFileType :=
  let lowerUrl := lowerAscii url
  if jsEndsWith lowerUrl ".glb" then .glb
  else if jsEndsWith lowerUrl ".gltf" then .gltf
  else if jsEndsWith lowerUrl ".fbx" then .fbx
  else .unknown

/-- A three.js `Matrix4`, with entries named row-major as in
`Matrix4.set(n11, ..., n44)`. -/
structure Mat4 where
  n11 : ℚ
  n12 : ℚ
  n13 : ℚ
  n14 : ℚ
  n21 : ℚ
  n22 : ℚ
  n23 : ℚ
  n24 : ℚ
  n31 : ℚ
  n32 : ℚ
  n33 : ℚ
  n34 : ℚ
  n41 : ℚ
  n42 : ℚ
  n43 : ℚ
  n44 : ℚ
deriving DecidableEq, Repr

/-- The identity matrix (a fresh three.js `Matrix4`). -/
def idMat4 : Mat4 :=
  ⟨1, 0, 0, 0, 0, 1, 0, 0, 0, 0, 1, 0, 0, 0, 0, 1⟩

/-- three.js `Vector3.applyMatrix4`: homogeneous transform with perspective
divide `w = 1 / (n41 x + n42 y + n43 z + n44)`. Division by zero yields `0`
in `ℚ` (JS would yield infinities; world matrices of scene nodes are affine,
with last row `0 0 0 1`). -/
def applyMatrix4 (v : Vec3) (m : Mat4) : Vec3 :=
  let w := 1 / (m.n41 * v.x + m.n42 * v.y + m.n43 * v.z + m.n44)
  ⟨(m.n11 * v.x + m.n12 * v.y + m.n13 * v.z + m.n14) * w,
   (m.n21 * v.x + m.n22 * v.y + m.n23 * v.z + m.n24) * w,
   (m.n31 * v.x + m.n32 * v.y + m.n33 * v.z + m.n34) * w⟩

/-- A three.js `BufferAttribute`: a flat scalar array viewed in groups of
`itemSize`. -/
structure BufferAttribute where
  itemSize : ℕ
  data : List ℚ
deriving DecidableEq, Repr

/-- Embeds `BufferAttribute.count = array.length / itemSize`. -/
def BufferAttribute.count (a : BufferAttribute) : ℕ :=
  a.data.length / a.itemSize

/-- A three.js `BufferGeometry`: named attribute channels plus an optional
triangle index buffer. (Morph attributes and groups are not modelled; the
cropper's handling of them is an explicit no-op/simplification in the
source.) -/
structure BufferGeometry where
  attributes : List (String × BufferAttribute)
  index : Option (List ℕ)
deriving DecidableEq, Repr

/-- Embeds `BufferGeometry.getAttribute(name)`. -/
def BufferGeometry.getAttribute (g : BufferGeometry) (name : String) :
    Option BufferAttribute :=
  g.attributes.lookup name

/-- three.js `Vector3.fromBufferAttribute(attr, index)`: reads components at
`index * itemSize + 0/1/2`. Out-of-range reads (JS `undefined`/`NaN`) are
modelled as `0`. -/
def fromBufferAttribute (attr : BufferAttribute) (index : ℕ) : Vec3 :=
  ⟨attr.data.getD (index * attr.itemSize) 0,
   attr.data.getD (index * attr.itemSize + 1) 0,
   attr.data.getD (index * attr.itemSize + 2) 0⟩

/-- Embeds `TriangleTestStrategy` from `cheap-cropper.ts`. -/
inductive TriangleTestStrategy where
  | centroid
  | allVertices
  | anyVertex
deriving DecidableEq, Repr

/-- Embeds `CheapCropOptions` from `cheap-cropper.ts`, already merged with
`DEFAULT_CROP_OPTIONS` (the source merges by object spread
`{...DEFAULT_CROP_OPTIONS, ...options}` at entry). -/
structure CheapCropOptions where
  strategy : TriangleTestStrategy
  recomputeNormals : Bool
deriving DecidableEq, Repr

/-- Embeds `DEFAULT_CROP_OPTIONS` from `cheap-cropper.ts`. -/
def DEFAULT_CROP_OPTIONS : CheapCropOptions :=
  { strategy := .centroid, recomputeNormals := true }

namespace CheapCropper

/-- Embeds `CheapCropper.getWorldPosition`: local position fetched from the
position attribute, then transformed by the node's world matrix. -/
def getWorldPosition (positionAttr : BufferAttribute) (index : ℕ)
    (worldMatrix : Mat4) : Vec3 :=
  applyMatrix4 (fromBufferAttribute positionAttr index) worldMatrix

/-- Embeds `CheapCropper.testTriangle`: keep-predicate for one triangle, per
strategy, evaluated on the three world-space vertices. -/
def testTriangle (positionAttr : BufferAttribute) (i0 i1 i2 : ℕ)
    (worldMatrix : Mat4) (cropBox : CropBoxConfig)
    (strategy : TriangleTestStrategy) : Bool :=
  let v0 := getWorldPosition positionAttr i0 worldMatrix
  let v1 := getWorldPosition positionAttr i1 worldMatrix
  let v2 := getWorldPosition positionAttr i2 worldMatrix
  match strategy with
  | .centroid =>
    let cx := (v0.x + v1.x + v2.x) / 3
    let cy := (v0.y + v1.y + v2.y) / 3
    let cz := (v0.z + v1.z + v2.z) / 3
    isPointInCropBox cx cy cz cropBox
  | .allVertices =>
    isPointInCropBox v0.x v0.y v0.z cropBox &&
    isPointInCropBox v1.x v1.y v1.z cropBox &&
    isPointInCropBox v2.x v2.y v2.z cropBox
  | .anyVertex =>
    isPointInCropBox v0.x v0.y v0.z cropBox ||
    isPointInCropBox v1.x v1.y v1.z cropBox ||
    isPointInCropBox v2.x v2.y v2.z cropBox

/-- First-encounter-order deduplication: the contents of the JS `Map`
`vertexMap` (old index → new index) built in `buildNewGeometry`, listed as
the old indices in insertion order; the new index of an old index is its
position in this list. -/
def firstSeen (l : List ℕ) : List ℕ :=
  l.foldl (fun acc x => if acc.contains x then acc else acc ++ [x]) []

/-- The `itemSize` scalars of old vertex `oldIdx` in an attribute's flat
array (`oldAttr.array[oldIdx * itemSize + i]`, out-of-range reads as `0`). -/
def sliceAt (data : List ℚ) (oldIdx itemSize : ℕ) : List ℚ :=
  (List.range itemSize).map (fun i => data.getD (oldIdx * itemSize + i) 0)

/-- Embeds `CheapCropper.buildNewGeometry`: rebuild a geometry from the kept
triangles' (old) vertex indices. Indexed input: compact the attributes to
the deduplicated referenced vertices (first-encounter order) and emit a
remapped index buffer. Non-indexed input: copy each attribute's values once
per entry of the kept list, in order, with no index buffer. (In the source
the non-indexed branch also builds an `indexMap` that is never used.) -/
def buildNewGeometry (originalGeometry : BufferGeometry)
    (keptTriangleIndices : List ℕ) (wasIndexed : Bool) : BufferGeometry :=
  if wasIndexed then
    let uniq := firstSeen keptTriangleIndices
    let newIndices := keptTriangleIndices.map (fun oldIndex => uniq.indexOf oldIndex)
    { attributes := originalGeometry.attributes.map (fun p =>
        (p.1, { itemSize := p.2.itemSize,
                data := (uniq.map (fun oldIdx => sliceAt p.2.data oldIdx p.2.itemSize)).flatten })),
      index := some newIndices }
  else
    { attributes := originalGeometry.attributes.map (fun p =>
        (p.1, { itemSize := p.2.itemSize,
                data := (keptTriangleIndices.map (fun oldIdx => sliceAt p.2.data oldIdx p.2.itemSize)).flatten })),
      index := none }

/-- Embeds `CheapCropper.cropGeometry`. Returns `none` when the geometry has no
position attribute, otherwise `some (geometry', trianglesRemoved,
trianglesKept)`; when no triangle is removed the input geometry itself is
returned. `computeVertexNormalsFn` stands for the external three.js
library call `BufferGeometry.computeVertexNormals` (outside this
repository; it involves irrational normalization). Triangle counts use
truncating division as in well-formed buffers (JS computes a fractional
count for malformed, non-multiple-of-3 buffers). -/
def cropGeometry (computeVertexNormalsFn : BufferGeometry → BufferGeometry)
    (geometry : BufferGeometry) (worldMatrix : Mat4)
    (cropBox : CropBoxConfig) (options : CheapCropOptions) :
    Option (BufferGeometry × ℕ × ℕ) :=
  match geometry.getAttribute "position" with
  | none => none
  | some positionAttr =>
    let indicesOpt := geometry.index
    let vertexCount := positionAttr.count
    let triangleCount := match indicesOpt with
      | some indices => indices.length / 3
      | none => vertexCount / 3
    let keptTriangles := (List.range triangleCount).foldl (fun acc i =>
      let i0 := match indicesOpt with | some ind => ind.getD (i * 3) 0 | none => i * 3
      let i1 := match indicesOpt with | some ind => ind.getD (i * 3 + 1) 0 | none => i * 3 + 1
      let i2 := match indicesOpt with | some ind => ind.getD (i * 3 + 2) 0 | none => i * 3 + 2
      if testTriangle positionAttr i0 i1 i2 worldMatrix cropBox options.strategy
      then acc ++ [i0, i1, i2] else acc) []
    let trianglesKept := keptTriangles.length / 3
    let trianglesRemoved := triangleCount - trianglesKept
    if trianglesRemoved = 0 then
      some (geometry, 0, trianglesKept)
    else
      let newGeometry := buildNewGeometry geometry keptTriangles indicesOpt.isSome
      let newGeometry2 := if options.recomputeNormals
        then computeVertexNormalsFn newGeometry else newGeometry
      some (newGeometry2, trianglesRemoved, trianglesKept)

end CheapCropper

/-- A three.js `Object3D` subtree: a node optionally carrying a renderable
mesh geometry (`geometry = some _` corresponds to `object instanceof
THREE.Mesh && object.geometry`), its world matrix, and children. -/
inductive Object3D where
  | node (geometry : Option BufferGeometry) (matrixWorld : Mat4)
      (children : List Object3D)

namespace CheapCropper

/-- Accumulator of `CheapCropper.applyCrop`'s traversal: aggregate counts
plus the list of geometries on which `dispose()` was invoked. -/
structure CropAccum where
  trianglesRemoved : ℕ
  trianglesKept : ℕ
  meshesProcessed : ℕ
  disposed : List BufferGeometry
deriving DecidableEq, Repr

/-- Merge two traversal accumulators. -/
def CropAccum.append (a b : CropAccum) : CropAccum :=
  ⟨a.trianglesRemoved + b.trianglesRemoved, a.trianglesKept + b.trianglesKept,
   a.meshesProcessed + b.meshesProcessed, a.disposed ++ b.disposed⟩

mutual

/-- The body of `root.traverse(...)` in `CheapCropper.applyCrop`: visit the
node; when it is a mesh with a geometry and `cropGeometry` returns a
result, install the returned geometry, add the counts, and call
`dispose()` on the old geometry (recorded in the accumulator); then visit
the children. -/
def cropTraverse (computeVertexNormalsFn : BufferGeometry → BufferGeometry)
    (cropBox : CropBoxConfig) (opts : CheapCropOptions) :
    Object3D → Object3D × CropAccum
  | .node geometryOpt matrixWorld children =>
    let step : Option BufferGeometry × CropAccum :=
      match geometryOpt with
      | some geometry =>
        match cropGeometry computeVertexNormalsFn geometry matrixWorld cropBox opts with
        | some (g, r, k) => (some g, ⟨r, k, 1, [geometry]⟩)
        | none => (some geometry, ⟨0, 0, 0, []⟩)
      | none => (none, ⟨0, 0, 0, []⟩)
    let rest := cropTraverseList computeVertexNormalsFn cropBox opts children
    (.node step.1 matrixWorld rest.1, step.2.append rest.2)

/-- Traverse a list of children in order. -/
def cropTraverseList (computeVertexNormalsFn : BufferGeometry → BufferGeometry)
    (cropBox : CropBoxConfig) (opts : CheapCropOptions) :
    List Object3D → List Object3D × CropAccum
  | [] => ([], ⟨0, 0, 0, []⟩)
  | c :: cs =>
    let hd := cropTraverse computeVertexNormalsFn cropBox opts c
    let tl := cropTraverseList computeVertexNormalsFn cropBox opts cs
    (hd.1 :: tl.1, hd.2.append tl.2)

end

/-- Embeds `CheapCropper.applyCrop(root, cropBox, options)`: traverse the tree,
crop every mesh geometry, and report `success: true` with the aggregate
counts. The returned triple is (updated tree, `CropResult`, geometries
disposed during the call). -/
def applyCrop (computeVertexNormalsFn : BufferGeometry → BufferGeometry)
    (root : Object3D) (cropBox : CropBoxConfig) (options : CheapCropOptions) :
    Object3D × CropResult × List BufferGeometry :=
  let t := cropTraverse computeVertexNormalsFn cropBox options root
  (t.1,
   { success := true,
     trianglesRemoved := t.2.trianglesRemoved,
     trianglesKept := t.2.trianglesKept,
     meshesProcessed := t.2.meshesProcessed },
   t.2.disposed)

end CheapCropper

/-- Embeds `unreliableMimeTypes` from `ModelCropEngine.inferFileType`. -/
def unreliableMimeTypes : List String :=
  ["text/plain", "application/octet-stream", "binary/octet-stream"]

/-- The ASCII code points of `'Kaydara FBX Binary'`. -/
def fbxMagicBytes : List ℕ :=
  "Kaydara FBX Binary".data.map Char.toNat

/-- Embeds `ModelCropEngine.detectFileTypeFromContent(blob)`: magic-byte sniff of
the first 64 bytes. A byte list models the blob; out-of-range reads
(`undefined` in JS, never equal to a magic byte) are modelled as a
distinguished value `256` outside the byte range. Text checks decode bytes
one-for-one to characters, which agrees with the source's ASCII/UTF-8
decoders on the ASCII-range bytes these comparisons inspect. -/
def detectFileTypeFromContent (blob : List ℕ) : ModelFileType :=
  let bytes := blob.take 64
  if bytes.getD 0 256 = 0x67 && bytes.getD 1 256 = 0x6c &&
     bytes.getD 2 256 = 0x54 && bytes.getD 3 256 = 0x46 then
    .glb
  else if bytes.take fbxMagicBytes.length = fbxMagicBytes then
    .fbx
  else
    let textStart := ((bytes.take 32).map Char.ofNat).dropWhile Char.isWhitespace
    if textStart.head? = some (Char.ofNat 123) then .gltf
    else .unknown

/-- Embeds `ModelCropEngine.inferFileType(filename?, mimeType?, blob?)`: filename
extension first, then MIME type (ignoring the known-unreliable generic
types), then content sniffing. -/
def inferFileType (filename : Option String) (mimeType : Option String)
    (blob : Option (List ℕ)) : ModelFileType :=
  let byNameStep : Option ModelFileType :=
    match filename with
    | some f =>
      let byName := getModelFileType f
      if byName ≠ .unknown then some byName else none
    | none => none
  match byNameStep with
  | some t => t
  | none =>
    let byMimeStep : Option ModelFileType :=
      match mimeType with
      | some m =>
        let lower := lowerAscii m
        if unreliableMimeTypes.contains lower then none
        else if jsIncludes lower "fbx" then some .fbx
        else if jsIncludes lower "gltf" || jsIncludes lower "glb" then some .glb
        else none
      | none => none
    match byMimeStep with
    | some t => t
    | none =>
      match blob with
      | some bytes =>
        let detectedType := detectFileTypeFromContent bytes
        if detectedType ≠ .unknown then detectedType else .unknown
      | none => .unknown

/-- Modelled from the spec: the MIME-type step of the detection priority
list as the spec words it — skipped (yielding `unknown`) for the
known-unreliable generic types, substring `fbx` mapping to fbx, substring
`gltf` or `glb` mapping to glb. -/
def mimeDetectSpec (m : String) : ModelFileType :=
  let lower := lowerAscii m
  if unreliableMimeTypes.contains lower then .unknown
  else if jsIncludes lower "fbx" then .fbx
  else if jsIncludes lower "gltf" || jsIncludes lower "glb" then .glb
  else .unknown

/-- Modelled from the spec: "first match wins" over a list of detector
verdicts. -/
def firstKnown : List ModelFileType → ModelFileType
  | [] => .unknown
  | t :: ts => if t ≠ .unknown then t else firstKnown ts

/-- Modelled from the spec: the full detection chain as a priority list —
filename suffix, then MIME type, then magic bytes, first match winning. -/
def detectChainSpec (filename : Option String) (mimeType : Option String)
    (blob : Option (List ℕ)) : ModelFileType :=
  firstKnown ((filename.map getModelFileType).toList ++
    (mimeType.map mimeDetectSpec).toList ++
    (blob.map detectFileTypeFromContent).toList)

/-- The parser family the engine dispatches to. -/
inductive LoaderKind where
  | gltfLoader
  | fbxLoader
deriving DecidableEq, Repr

/-- The `switch (fileType)` dispatch in the engine's `loadModel`: glb/gltf
use the GLTF loader, fbx the FBX loader, and the `default` branch falls
back to the GLTF loader ("Fallback to GLTF loader for unknown sources"). -/
def selectLoader : ModelFileType → LoaderKind
  | .glb => .gltfLoader
  | .gltf => .gltfLoader
  | .fbx => .fbxLoader
  | .unknown => .gltfLoader

/-- A three.js `Box3`. -/
structure Box3 where
  min : Vec3
  max : Vec3
deriving DecidableEq, Repr

/-- three.js `Box3.getCenter`: `(min + max) * 0.5`. -/
def boxCenter (b : Box3) : Vec3 :=
  ⟨(b.min.x + b.max.x) / 2, (b.min.y + b.max.y) / 2, (b.min.z + b.max.z) / 2⟩

/-- The loaded model as the engine holds it: its scene-graph root and the
root node's own position/rotation. -/
structure LoadedModel where
  root : Object3D
  position : Vec3
  rotation : Vec3

/-- The engine state fields the specified core reads and writes
(`ModelCropEngine`): loaded model, current crop box and transform,
loading state, and the orbit-controls target (rendering-only fields such
as lights and helpers are presentation state outside the core). -/
structure EngineState where
  loadedModel : Option LoadedModel
  currentCropBox : CropBoxConfig
  currentTransform : MeshTransformConfig
  loadingState : LoadingState
  cameraTarget : Vec3

/-- Embeds `ModelCropEngine.setLoadingState`. -/
def EngineState.setLoadingState (e : EngineState) (s : LoadingState) : EngineState :=
  { e with loadingState := s }

/-- Embeds `ModelCropEngine.applyTransform`: copy the stored transform onto the
loaded model's root position and rotation (no-op with no model). -/
def applyTransform (e : EngineState) : EngineState :=
  match e.loadedModel with
  | none => e
  | some lm =>
    { e with loadedModel := some { lm with
        position := e.currentTransform.position,
        rotation := e.currentTransform.rotation } }

/-- Embeds `ModelCropEngine.fitModelInView(model)` (current variant): `box` is the
world-space `Box3` computed by the external three.js call
`new THREE.Box3().setFromObject(model)` on the model as positioned, passed
here as an input. The camera is pointed at the box center ("without moving
the model"), the controls target is set to the center, and the current
crop box becomes the box expanded by `padding = 0.1` on every face. The
model's own position is not written. -/
def fitModelInView (e : EngineState) (box : Box3) : EngineState :=
  let center := boxCenter box
  let padding : ℚ := 1/10
  { e with
    cameraTarget := center,
    currentCropBox :=
      { minX := box.min.x - padding,
        minY := box.min.y - padding,
        minZ := box.min.z - padding,
        maxX := box.max.x + padding,
        maxY := box.max.y + padding,
        maxZ := box.max.z + padding } }

/-- The success path of `ModelCropEngine.loadModel`: set state `loading`,
drop and dispose any previous model, install the parsed model (root with
its parser-given position/rotation, world bounding box `bbox`), fit it in
view, apply the current transform, refresh the crop-box visualization
(which does not change `currentCropBox`), and set state `loaded`. -/
def engineLoadSuccess (e : EngineState) (root : Object3D)
    (initPos initRot : Vec3) (bbox : Box3) : EngineState :=
  let e1 := e.setLoadingState .loading
  let e2 := { e1 with loadedModel := some ⟨root, initPos, initRot⟩ }
  let e3 := fitModelInView e2 bbox
  let e4 := applyTransform e3
  e4.setLoadingState .loaded

/-- Embeds `ModelCropEngine.updateCropBox(box)`. -/
def engineUpdateCropBox (e : EngineState) (box : CropBoxConfig) : EngineState :=
  { e with currentCropBox := box }

/-- Embeds `ModelCropEngine.setMeshTransform(transform)`. -/
def engineSetMeshTransform (e : EngineState) (t : MeshTransformConfig) : EngineState :=
  applyTransform { e with currentTransform := t }

/-- Embeds `ModelCropEngine.applyCheapCrop(options?)`: with no model, return the
all-zero failure result without touching state and without throwing;
otherwise refresh world matrices (a three.js call; the tree's `matrixWorld`
fields model the refreshed values) and delegate to `CheapCropper.applyCrop`. -/
def applyCheapCrop (computeVertexNormalsFn : BufferGeometry → BufferGeometry)
    (e : EngineState) (options : CheapCropOptions) : CropResult × EngineState :=
  match e.loadedModel with
  | none =>
    ({ success := false, trianglesRemoved := 0, trianglesKept := 0,
       meshesProcessed := 0 }, e)
  | some lm =>
    let t := CheapCropper.applyCrop computeVertexNormalsFn lm.root
      e.currentCropBox options
    (t.2.1, { e with loadedModel := some { lm with root := t.1 } })

/-- Embeds `ModelCropEngine.exportToGlb()`: with no model, reject with
`'No model loaded to export'`; otherwise return the external
`GLTFExporter`'s outcome (success or rejection), passed in as
`exporterResult`. Neither path writes `loadingState`. -/
def exportToGlb (e : EngineState) (exporterResult : Except String (List ℕ)) :
    Except String (List ℕ) × EngineState :=
  match e.loadedModel with
  | none => (Except.error "No model loaded to export", e)
  | some _ => (exporterResult, e)

/-- Embeds `roundNumber(value)` from `model-cropper.service.ts`:
`Math.round(value * 100) / 100`; JS `Math.round` rounds half toward `+∞`,
i.e. `⌊x + 1/2⌋`. -/
def roundNumber (value : ℚ) : ℚ :=
  (⌊value * 100 + 1/2⌋ : ℚ) / 100

/-- Embeds `roundCropBox(box)` from `model-cropper.service.ts`. -/
def roundCropBox (box : CropBoxConfig) : CropBoxConfig :=
  { minX := roundNumber box.minX,
    maxX := roundNumber box.maxX,
    minY := roundNumber box.minY,
    maxY := roundNumber box.maxY,
    minZ := roundNumber box.minZ,
    maxZ := roundNumber box.maxZ }

/-- Embeds `roundTransform(transform)` from `model-cropper.service.ts`. -/
def roundTransform (transform : MeshTransformConfig) : MeshTransformConfig :=
  { position := ⟨roundNumber transform.position.x, roundNumber transform.position.y,
                 roundNumber transform.position.z⟩,
    rotation := ⟨roundNumber transform.rotation.x, roundNumber transform.rotation.y,
                 roundNumber transform.rotation.z⟩ }

/-- The `ModelCropperService` signal state (visual-only signals such as
colors and helper visibility are presentation state outside the core). -/
structure ServiceState where
  engine : Option EngineState
  loadingState : LoadingState
  errorMessage : Option String
  cropBox : CropBoxConfig
  meshTransform : MeshTransformConfig
  boxVisible : Bool
  lastCropResult : Option CropResult
  cropIsValid : Bool

/-- Embeds `ModelCropperService.updateCropBox(box)`: round, store, forward to the
engine, and invalidate the crop. -/
def svcUpdateCropBox (st : ServiceState) (box : CropBoxConfig) : ServiceState :=
  let rounded := roundCropBox box
  { st with
    cropBox := rounded,
    engine := st.engine.map (fun e => engineUpdateCropBox e rounded),
    cropIsValid := false }

/-- Embeds `ModelCropperService.updateTransform(transform)`: round, store, forward
to the engine, and invalidate the crop. -/
def svcUpdateTransform (st : ServiceState) (t : MeshTransformConfig) : ServiceState :=
  let rounded := roundTransform t
  { st with
    meshTransform := rounded,
    engine := st.engine.map (fun e => engineSetMeshTransform e rounded),
    cropIsValid := false }

/-- Embeds `ModelCropperService.applyCrop()`: with no engine, return the all-zero
failure result (and write nothing); otherwise run the engine crop, record
the result, and set `cropIsValid` when the result reports success. -/
def svcApplyCrop (computeVertexNormalsFn : BufferGeometry → BufferGeometry)
    (st : ServiceState) : CropResult × ServiceState :=
  match st.engine with
  | none =>
    ({ success := false, trianglesRemoved := 0, trianglesKept := 0,
       meshesProcessed := 0 }, st)
  | some e =>
    let t := applyCheapCrop computeVertexNormalsFn e DEFAULT_CROP_OPTIONS
    (t.1,
     { st with
       engine := some t.2,
       lastCropResult := some t.1,
       cropIsValid := if t.1.success then true else st.cropIsValid })

/-- The success path of `ModelCropperService.loadModel(srcUrl)`: clear the
error message, run the engine load (whose `loaded` state change is mirrored
into the service signal by the registered callback), and sync the rounded
crop box back from the engine. `cropIsValid` is not written anywhere on
this path. With no engine the call throws before touching any state. -/
def svcLoadModelSuccess (st : ServiceState) (root : Object3D)
    (initPos initRot : Vec3) (bbox : Box3) : ServiceState :=
  match st.engine with
  | none => st
  | some e =>
    let e1 := engineLoadSuccess e root initPos initRot bbox
    { st with
      errorMessage := none,
      engine := some e1,
      loadingState := .loaded,
      cropBox := roundCropBox e1.currentCropBox }

/-- Embeds `ModelCropperService.dispose()`: drop the engine and reset every signal
to its default. -/
def svcDispose (_st : ServiceState) : ServiceState :=
  { engine := none,
    loadingState := .idle,
    errorMessage := none,
    cropBox := DEFAULT_CROP_BOX,
    meshTransform := DEFAULT_MESH_TRANSFORM,
    boxVisible := true,
    lastCropResult := none,
    cropIsValid := false }

/-- The number of vertices of a geometry rebuilt by `buildNewGeometry`:
the deduplicated referenced vertices for indexed input, one vertex per
kept-list entry for non-indexed input. -/
def newVertexCount (kept : List ℕ) (wasIndexed : Bool) : ℕ :=
  if wasIndexed then (CheapCropper.firstSeen kept).length else kept.length

/- Concrete fixtures used to evaluate the embedding at specific inputs. -/

/-- The unit crop box `[0,1]³`. -/
def box01 : CropBoxConfig := ⟨0, 0, 0, 1, 1, 1⟩

/-- A position buffer whose triangle has no vertex in `box01` but whose
centroid `(1/6, 1/2, 1/2)` is in `box01`. -/
def attrCex : BufferAttribute := ⟨3, [-10, 1/2, 1/2, 5, 1/2, 1/2, 11/2, 1/2, 1/2]⟩

/-- A position buffer whose triangle lies entirely in `box01` (and in
`DEFAULT_CROP_BOX`). -/
def attrInside : BufferAttribute := ⟨3, [0, 0, 0, 1/2, 0, 0, 0, 1/2, 0]⟩

/-- A position buffer whose triangle lies entirely outside `box01`. -/
def attrOutside : BufferAttribute := ⟨3, [5, 5, 5, 6, 5, 5, 11/2, 6, 5]⟩

/-- A non-indexed single-triangle geometry inside `DEFAULT_CROP_BOX`. -/
def gInside : BufferGeometry := ⟨[("position", attrInside)], none⟩

/-- A lone mesh node carrying `gInside`, at the identity world matrix. -/
def rootInside : Object3D := .node (some gInside) idMat4 []

/-- Position channel of the indexed fixture geometry. -/
def posW : BufferAttribute := ⟨3, [0, 0, 0, 1, 0, 0, 0, 1, 0]⟩

/-- UV channel of the indexed fixture geometry. -/
def uvW : BufferAttribute := ⟨2, [0, 0, 1, 0, 0, 1]⟩

/-- An indexed geometry with position and uv channels. -/
def gIndexed : BufferGeometry := ⟨[("position", posW), ("uv", uvW)], some [0, 1, 2]⟩

/-- An engine with no model loaded. -/
def engineEmpty : EngineState :=
  ⟨none, DEFAULT_CROP_BOX, DEFAULT_MESH_TRANSFORM, .idle, ⟨0, 0, 0⟩⟩

/-- An empty group node. -/
def emptyRoot : Object3D := .node none idMat4 []

/-- An engine with a (trivial) model loaded. -/
def engineLoaded0 : EngineState :=
  ⟨some ⟨emptyRoot, ⟨0, 0, 0⟩, ⟨0, 0, 0⟩⟩, DEFAULT_CROP_BOX,
   DEFAULT_MESH_TRANSFORM, .loaded, ⟨0, 0, 0⟩⟩

/-- A service whose engine has a model loaded and no valid crop yet. -/
def svc0 : ServiceState :=
  ⟨some engineLoaded0, .loaded, none, DEFAULT_CROP_BOX,
   DEFAULT_MESH_TRANSFORM, true, none, false⟩

/-- The unit `Box3`. -/
def unitBox3 : Box3 := ⟨⟨0, 0, 0⟩, ⟨1, 1, 1⟩⟩

end ModelCropper

open ModelCropper

/-- Membership form of the point-in-box predicate (shared helper). -/
theorem isPointInCropBox_iff (x y z : ℚ) (b : CropBoxConfig) :
    isPointInCropBox x y z b = true ↔
      (b.minX ≤ x ∧ x ≤ b.maxX ∧ b.minY ≤ y ∧ y ≤ b.maxY ∧
       b.minZ ≤ z ∧ z ≤ b.maxZ) := by
  simp only [isPointInCropBox, Bool.and_eq_true, decide_eq_true_eq, ge_iff_le]
  tauto

/-- Claim C1: `isPointInCropBox` returns true iff the point lies in the three
closed intervals of the box; for a box inverted on any axis it is false at
every point; on a zero-volume axis (`min = max`) it matches exactly the
single coordinate `min = max`. -/
theorem isPointInCropBox_correct :
    (∀ (x y z : ℚ) (b : CropBoxConfig),
      isPointInCropBox x y z b = true ↔
        (b.minX ≤ x ∧ x ≤ b.maxX ∧ b.minY ≤ y ∧ y ≤ b.maxY ∧
         b.minZ ≤ z ∧ z ≤ b.maxZ)) ∧
    (∀ (b : CropBoxConfig),
      (b.maxX < b.minX ∨ b.maxY < b.minY ∨ b.maxZ < b.minZ) →
      ∀ (x y z : ℚ), isPointInCropBox x y z b = false) ∧
    (∀ (x y z : ℚ) (b : CropBoxConfig), b.minX = b.maxX →
      isPointInCropBox x y z b = true → x = b.minX) := by
  refine ⟨isPointInCropBox_iff, ?_, ?_⟩
  · intro b hinv x y z
    rw [Bool.eq_false_iff]
    intro htrue
    have h := (isPointInCropBox_iff x y z b).mp htrue
    rcases hinv with hx | hy | hz
    · exact absurd (le_trans h.1 h.2.1) (not_le_of_lt hx)
    · exact absurd (le_trans h.2.2.1 h.2.2.2.1) (not_le_of_lt hy)
    · exact absurd (le_trans h.2.2.2.2.1 h.2.2.2.2.2) (not_le_of_lt hz)
  · intro x y z b hmm h
    have hx := (isPointInCropBox_iff x y z b).mp h
    exact le_antisymm (hmm ▸ hx.2.1) hx.1

/-- Witness for C1: the conjuncts with hypotheses, applied at concrete inputs
(an inverted box, and a zero-volume x-axis). -/
theorem isPointInCropBox_correct_witness :
    isPointInCropBox 0 0 0 ⟨1, 1, 1, -1, -1, -1⟩ = false ∧
    (0 : ℚ) = (⟨0, -1, -1, 0, 1, 1⟩ : CropBoxConfig).minX := by
  constructor
  · exact isPointInCropBox_correct.2.1 ⟨1, 1, 1, -1, -1, -1⟩ (Or.inl (by norm_num)) 0 0 0
  · exact isPointInCropBox_correct.2.2 0 0 0 ⟨0, -1, -1, 0, 1, 1⟩ rfl (by decide)

/-- If three points are in the box, their centroid is in the box
(shared helper for the strategy ordering). -/
theorem centroid_in_box_of_all (v0 v1 v2 : Vec3) (box : CropBoxConfig)
    (h0 : isPointInCropBox v0.x v0.y v0.z box = true)
    (h1 : isPointInCropBox v1.x v1.y v1.z box = true)
    (h2 : isPointInCropBox v2.x v2.y v2.z box = true) :
    isPointInCropBox ((v0.x + v1.x + v2.x) / 3) ((v0.y + v1.y + v2.y) / 3)
      ((v0.z + v1.z + v2.z) / 3) box = true := by
  rw [isPointInCropBox_iff] at h0 h1 h2 ⊢
  obtain ⟨a1, a2, a3, a4, a5, a6⟩ := h0
  obtain ⟨b1, b2, b3, b4, b5, b6⟩ := h1
  obtain ⟨c1, c2, c3, c4, c5, c6⟩ := h2
  refine ⟨by linarith, by linarith, by linarith, by linarith, by linarith, by linarith⟩

/-- Claim C2 (amended): For a fixed triangle and box, if `all-vertices` keeps
it then `centroid` and `any-vertex` keep it, and if `any-vertex` discards
it then `all-vertices` discards it. (The further part of the original
claim — `any-vertex` discarding forces `centroid` to discard — is false;
see the counterexample.) -/
theorem testTriangle_strategy_ordering (attr : BufferAttribute) (i0 i1 i2 : ℕ)
    (m : Mat4) (box : CropBoxConfig) :
    (CheapCropper.testTriangle attr i0 i1 i2 m box .allVertices = true →
      CheapCropper.testTriangle attr i0 i1 i2 m box .centroid = true ∧
      CheapCropper.testTriangle attr i0 i1 i2 m box .anyVertex = true) ∧
    (CheapCropper.testTriangle attr i0 i1 i2 m box .anyVertex = false →
      CheapCropper.testTriangle attr i0 i1 i2 m box .allVertices = false) := by
  constructor
  · intro hall
    simp only [CheapCropper.testTriangle, Bool.and_eq_true] at hall
    obtain ⟨⟨h0, h1⟩, h2⟩ := hall
    constructor
    · simp only [CheapCropper.testTriangle]
      exact centroid_in_box_of_all _ _ _ _ h0 h1 h2
    · simp only [CheapCropper.testTriangle, Bool.or_eq_true]
      exact Or.inl (Or.inl h0)
  · intro hany
    simp only [CheapCropper.testTriangle, Bool.or_eq_false_iff] at hany
    simp only [CheapCropper.testTriangle, Bool.and_eq_false_iff]
    exact Or.inl (Or.inl hany.1.1)

/-- Witness for C2: the ordering applied to a triangle inside `box01`
(discharging the `all-vertices` hypothesis) and to a triangle outside
`box01` (discharging the `any-vertex` hypothesis). -/
theorem testTriangle_strategy_ordering_witness :
    (CheapCropper.testTriangle attrInside 0 1 2 idMat4 box01 .centroid = true ∧
     CheapCropper.testTriangle attrInside 0 1 2 idMat4 box01 .anyVertex = true) ∧
    CheapCropper.testTriangle attrOutside 0 1 2 idMat4 box01 .allVertices = false := by
  constructor
  · refine (testTriangle_strategy_ordering attrInside 0 1 2 idMat4 box01).1 ?_
    norm_num [CheapCropper.testTriangle, CheapCropper.getWorldPosition,
      fromBufferAttribute, applyMatrix4, idMat4, isPointInCropBox, attrInside,
      box01, List.getD]
  · refine (testTriangle_strategy_ordering attrOutside 0 1 2 idMat4 box01).2 ?_
    norm_num [CheapCropper.testTriangle, CheapCropper.getWorldPosition,
      fromBufferAttribute, applyMatrix4, idMat4, isPointInCropBox, attrOutside,
      box01, List.getD]

/-- Counterexample for C2 as stated: for the triangle of `attrCex` and the
box `[0,1]³`, `any-vertex` discards the triangle yet `centroid` keeps it. -/
theorem testTriangle_strategy_monotonic_cex :
    CheapCropper.testTriangle attrCex 0 1 2 idMat4 box01 .anyVertex = false ∧
    CheapCropper.testTriangle attrCex 0 1 2 idMat4 box01 .centroid = true := by
  constructor <;>
    norm_num [CheapCropper.testTriangle, CheapCropper.getWorldPosition,
      fromBufferAttribute, applyMatrix4, idMat4, isPointInCropBox, attrCex,
      box01, List.getD]

/-- Each per-vertex slice copied by `buildNewGeometry` has exactly
`itemSize` scalars (shared helper). -/
theorem sliceAt_length (d : List ℚ) (i n : ℕ) :
    (CheapCropper.sliceAt d i n).length = n := by
  simp [CheapCropper.sliceAt]

/-- The flat array built from one slice per listed vertex has length
`(number of vertices) * itemSize` (shared helper). -/
theorem slices_flatten_length (d : List ℚ) (n : ℕ) (l : List ℕ) :
    ((l.map (fun i => CheapCropper.sliceAt d i n)).flatten).length = l.length * n := by
  induction l with
  | nil => simp
  | cons a t ih =>
    simp only [List.map_cons, List.flatten_cons, List.length_append,
      sliceAt_length, ih, List.length_cons]
    ring

/-- The attribute list of a rebuilt geometry, in closed form: one rebuilt
channel per original channel, same name, same item size, data drawn from
the deduplicated kept vertices (indexed) or the kept list (non-indexed)
(shared helper). -/
theorem buildNewGeometry_attributes (g : BufferGeometry) (kept : List ℕ)
    (w : Bool) :
    (CheapCropper.buildNewGeometry g kept w).attributes =
      g.attributes.map (fun p =>
        (p.1, ⟨p.2.itemSize,
          (((if w then CheapCropper.firstSeen kept else kept).map
            (fun oldIdx => CheapCropper.sliceAt p.2.data oldIdx p.2.itemSize)).flatten)⟩)) := by
  cases w <;> simp [CheapCropper.buildNewGeometry]

/-- Claim C9: Every attribute channel of a geometry handed to
`buildNewGeometry` is present in the rebuilt geometry under the same name
and item size, with data length exactly `newVertexCount * itemSize`; and
every rebuilt channel of positive item size (the position channel in
particular) has per-vertex count exactly `newVertexCount` — so all rebuilt
channels, position included, share one per-vertex count. -/
theorem buildNewGeometry_preserves_attributes :
    (∀ (g : BufferGeometry) (kept : List ℕ) (w : Bool) (name : String)
        (a : BufferAttribute), (name, a) ∈ g.attributes →
      ∃ a', (name, a') ∈ (CheapCropper.buildNewGeometry g kept w).attributes ∧
        a'.itemSize = a.itemSize ∧
        a'.data.length = newVertexCount kept w * a.itemSize) ∧
    (∀ (g : BufferGeometry) (kept : List ℕ) (w : Bool) (name : String)
        (a' : BufferAttribute),
      (name, a') ∈ (CheapCropper.buildNewGeometry g kept w).attributes →
      0 < a'.itemSize → a'.count = newVertexCount kept w) := by
  constructor
  · intro g kept w name a hmem
    refine ⟨⟨a.itemSize,
      (((if w then CheapCropper.firstSeen kept else kept).map
        (fun oldIdx => CheapCropper.sliceAt a.data oldIdx a.itemSize)).flatten)⟩, ?_, rfl, ?_⟩
    · rw [buildNewGeometry_attributes]
      exact List.mem_map_of_mem _ hmem
    · rw [slices_flatten_length]
      cases w <;> simp [newVertexCount]
  · intro g kept w name a' hmem hpos
    rw [buildNewGeometry_attributes] at hmem
    obtain ⟨⟨n0, a0⟩, hmem0, heq⟩ := List.mem_map.mp hmem
    have hsize : a'.itemSize = a0.itemSize := by
      have := congrArg Prod.snd heq
      simp only at this
      rw [← this]
    have hdata : a'.data.length = newVertexCount kept w * a0.itemSize := by
      have := congrArg Prod.snd heq
      simp only at this
      rw [← this]
      simp only
      rw [slices_flatten_length]
      cases w <;> simp [newVertexCount]
    rw [BufferAttribute.count, hdata, hsize, Nat.mul_div_cancel]
    rw [← hsize]
    exact hpos

/-- Witness for C9: for the indexed fixture geometry and kept list
`[0, 1, 2]`, the uv channel is still present after the rebuild and its
per-vertex count equals `newVertexCount` (= the rebuilt position count). -/
theorem buildNewGeometry_preserves_attributes_witness :
    (("uv", (⟨2, [0, 0, 1, 0, 0, 1]⟩ : BufferAttribute)) ∈
      (CheapCropper.buildNewGeometry gIndexed [0, 1, 2] true).attributes) ∧
    (⟨2, [0, 0, 1, 0, 0, 1]⟩ : BufferAttribute).count = newVertexCount [0, 1, 2] true ∧
    (⟨3, [0, 0, 0, 1, 0, 0, 0, 1, 0]⟩ : BufferAttribute).count = newVertexCount [0, 1, 2] true := by
  have hmemUv : (("uv", (⟨2, [0, 0, 1, 0, 0, 1]⟩ : BufferAttribute)) ∈
      (CheapCropper.buildNewGeometry gIndexed [0, 1, 2] true).attributes) := by
    norm_num [CheapCropper.buildNewGeometry, CheapCropper.firstSeen,
      CheapCropper.sliceAt, gIndexed, posW, uvW, List.getD, List.range_succ]
  have hmemPos : (("position", (⟨3, [0, 0, 0, 1, 0, 0, 0, 1, 0]⟩ : BufferAttribute)) ∈
      (CheapCropper.buildNewGeometry gIndexed [0, 1, 2] true).attributes) := by
    norm_num [CheapCropper.buildNewGeometry, CheapCropper.firstSeen,
      CheapCropper.sliceAt, gIndexed, posW, uvW, List.getD, List.range_succ]
  refine ⟨hmemUv, ?_, ?_⟩
  · exact buildNewGeometry_preserves_attributes.2 gIndexed [0, 1, 2] true "uv" _
      hmemUv (by norm_num)
  · exact buildNewGeometry_preserves_attributes.2 gIndexed [0, 1, 2] true "position" _
      hmemPos (by norm_num)

/-- Claim C3: Evaluating `CheapCropper.applyCrop` on a one-triangle mesh that
is entirely inside the crop box (zero triangles removed): the mesh keeps
its original geometry object (no reallocation) and the kept triangle is
counted, but `dispose()` is nevertheless invoked on that still-installed
geometry — the zero-removal case also reaches the dispose call, because
`cropGeometry` returns a non-null result (contradicting its own doc
comment, "or null if no changes needed") and `applyCrop` disposes on every
non-null result. -/
theorem applyCrop_zero_removed_still_disposes :
    CheapCropper.applyCrop id rootInside DEFAULT_CROP_BOX DEFAULT_CROP_OPTIONS =
      (rootInside, ⟨true, 0, 1, 1⟩, [gInside]) := by
  norm_num [CheapCropper.applyCrop, CheapCropper.cropTraverse,
    CheapCropper.cropTraverseList, CheapCropper.cropGeometry,
    CheapCropper.testTriangle, CheapCropper.getWorldPosition,
    fromBufferAttribute, applyMatrix4, idMat4, isPointInCropBox,
    BufferGeometry.getAttribute, BufferAttribute.count, rootInside, gInside,
    attrInside, DEFAULT_CROP_BOX, DEFAULT_CROP_OPTIONS, List.getD,
    List.range_succ, List.lookup, CheapCropper.CropAccum.append]

/-- Claim C4 (amended): The service's `cropIsValid` flag: set when (and only
when) an `applyCrop` call returns `success = true` (otherwise preserved),
reset to `false` by every `updateCropBox` call, every `updateTransform`
call, and `dispose` — but NOT by loading a new model, which leaves the
flag as it was (the original claim's load-resets-it part is false; see the
counterexample). -/
theorem cropIsValid_transitions
    (fn : BufferGeometry → BufferGeometry) (st : ServiceState)
    (b : CropBoxConfig) (t : MeshTransformConfig) (root : Object3D)
    (p r : Vec3) (bb : Box3) :
    (svcUpdateCropBox st b).cropIsValid = false ∧
    (svcUpdateTransform st t).cropIsValid = false ∧
    (svcDispose st).cropIsValid = false ∧
    (svcApplyCrop fn st).2.cropIsValid =
      ((svcApplyCrop fn st).1.success || st.cropIsValid) ∧
    (svcLoadModelSuccess st root p r bb).cropIsValid = st.cropIsValid := by
  refine ⟨rfl, rfl, rfl, ?_, ?_⟩
  · cases he : st.engine with
    | none => simp [svcApplyCrop, he]
    | some e =>
      cases hm : e.loadedModel with
      | none => simp [svcApplyCrop, applyCheapCrop, he, hm]
      | some lm => simp [svcApplyCrop, applyCheapCrop, he, hm, CheapCropper.applyCrop]
  · cases he : st.engine with
    | none => simp [svcLoadModelSuccess, he]
    | some e => simp [svcLoadModelSuccess, he]

/-- Counterexample for C4 as stated: starting from a service with a loaded
model, `applyCrop` succeeds and sets `cropIsValid`; a subsequent successful
`loadModel` of a new model leaves `cropIsValid = true` — loading a new
model does not reset it. -/
theorem cropIsValid_not_reset_by_load_cex :
    (svcApplyCrop id svc0).1.success = true ∧
    (svcLoadModelSuccess (svcApplyCrop id svc0).2 emptyRoot ⟨0, 0, 0⟩ ⟨0, 0, 0⟩
      unitBox3).cropIsValid = true := by
  constructor <;>
    norm_num [svcApplyCrop, applyCheapCrop, svc0, engineLoaded0, emptyRoot,
      CheapCropper.applyCrop, CheapCropper.cropTraverse,
      CheapCropper.cropTraverseList, CheapCropper.CropAccum.append,
      svcLoadModelSuccess, engineLoadSuccess, fitModelInView, applyTransform,
      EngineState.setLoadingState, boxCenter, unitBox3, DEFAULT_CROP_OPTIONS]

/-- Claim C10: The service rounds every numeric field of an incoming crop box
or transform to two decimal places before storing it and forwarding it to
the engine, so the stored state is always an integer multiple of `1/100`;
concretely, `-3.456` is stored as `-3.46` (`Math.round` semantics,
half toward `+∞`). -/
theorem service_rounds_cropbox_and_transform :
    (∀ (st : ServiceState) (b : CropBoxConfig),
      (svcUpdateCropBox st b).cropBox = roundCropBox b ∧
      (svcUpdateCropBox st b).engine =
        st.engine.map (fun e => engineUpdateCropBox e (roundCropBox b))) ∧
    (∀ (st : ServiceState) (t : MeshTransformConfig),
      (svcUpdateTransform st t).meshTransform = roundTransform t ∧
      (svcUpdateTransform st t).engine =
        st.engine.map (fun e => engineSetMeshTransform e (roundTransform t))) ∧
    (∀ q : ℚ, ∃ n : ℤ, roundNumber q = (n : ℚ) / 100) ∧
    roundNumber (-3456/1000) = -346/100 := by
  refine ⟨fun st b => ⟨rfl, rfl⟩, fun st t => ⟨rfl, rfl⟩,
    fun q => ⟨⌊q * 100 + 1/2⌋, rfl⟩, ?_⟩
  rw [roundNumber]
  norm_num

/-- Claim C5: With no model loaded, `applyCheapCrop` returns
`CropResult{success: false, 0, 0, 0}` without throwing (and without
touching engine state), whereas `exportToGlb` rejects with
`'No model loaded to export'`; an export call never changes
`LoadingState`, whatever the exporter outcome. -/
theorem noModelLoaded_crop_vs_export
    (fn : BufferGeometry → BufferGeometry) (opts : CheapCropOptions)
    (e : EngineState) (r : Except String (List ℕ)) :
    (e.loadedModel = none →
      (applyCheapCrop fn e opts).1 =
        ({ success := false, trianglesRemoved := 0, trianglesKept := 0,
           meshesProcessed := 0 } : CropResult) ∧
      (applyCheapCrop fn e opts).2 = e ∧
      (exportToGlb e r).1 = Except.error "No model loaded to export") ∧
    (exportToGlb e r).2.loadingState = e.loadingState := by
  constructor
  · intro h
    refine ⟨?_, ?_, ?_⟩ <;> simp [applyCheapCrop, exportToGlb, h]
  · cases hm : e.loadedModel <;> simp [exportToGlb, hm]

/-- Witness for C5: the empty engine, with a failing exporter outcome. -/
theorem noModelLoaded_crop_vs_export_witness :
    (applyCheapCrop id engineEmpty DEFAULT_CROP_OPTIONS).1 =
      ({ success := false, trianglesRemoved := 0, trianglesKept := 0,
         meshesProcessed := 0 } : CropResult) ∧
    (exportToGlb engineEmpty (Except.error "exporter failed")).1 =
      Except.error "No model loaded to export" :=
  ⟨((noModelLoaded_crop_vs_export id DEFAULT_CROP_OPTIONS engineEmpty
      (Except.error "exporter failed")).1 rfl).1,
   ((noModelLoaded_crop_vs_export id DEFAULT_CROP_OPTIONS engineEmpty
      (Except.error "exporter failed")).1 rfl).2.2⟩

/-- Claim C6: When format detection yields `unknown`, the engine's loader
dispatch falls back to the GLTF-family loader (the `default` switch
branch); dispatch is total over the detection verdicts — there is no
refusal branch, every verdict routes to the GLTF or FBX loader. -/
theorem unknown_format_falls_back_to_gltf :
    (∀ (f m : Option String) (b : Option (List ℕ)),
      inferFileType f m b = .unknown →
      selectLoader (inferFileType f m b) = .gltfLoader) ∧
    (∀ url : String, getModelFileType url = .unknown →
      selectLoader (getModelFileType url) = .gltfLoader) ∧
    (∀ t : ModelFileType,
      selectLoader t = .gltfLoader ∨ selectLoader t = .fbxLoader) := by
  refine ⟨?_, ?_, ?_⟩
  · intro f m b h
    rw [h]; rfl
  · intro url h
    rw [h]; rfl
  · intro t
    cases t <;> simp [selectLoader]

/-- Witness for C6: `model.obj` detects as `unknown` both through
`getModelFileType` and through the full inference chain, and the loader
used is the GLTF loader. -/
theorem unknown_format_falls_back_to_gltf_witness :
    selectLoader (inferFileType (some "model.obj") none none) = .gltfLoader ∧
    selectLoader (getModelFileType "model.obj") = .gltfLoader :=
  ⟨unknown_format_falls_back_to_gltf.1 (some "model.obj") none none (by decide),
   unknown_format_falls_back_to_gltf.2.1 "model.obj" (by decide)⟩

/-- Claim C7: After the success path of the current engine's `loadModel`, the
current crop box is exactly the model's world bounding box (as positioned,
the `Box3` three.js computes from the installed model) expanded by `0.1`
on every face; the model's position is set only from the stored transform
— it equals `currentTransform.position` whatever the bounding box, so it
is never auto-adjusted to re-center the model — while the derived crop box
and the camera/controls target do move to the model's location. -/
theorem engineLoadSuccess_fits_crop_box (e : EngineState) (root : Object3D)
    (p r : Vec3) (bbox : Box3) :
    (engineLoadSuccess e root p r bbox).currentCropBox =
      { minX := bbox.min.x - 1/10, minY := bbox.min.y - 1/10,
        minZ := bbox.min.z - 1/10, maxX := bbox.max.x + 1/10,
        maxY := bbox.max.y + 1/10, maxZ := bbox.max.z + 1/10 } ∧
    ((engineLoadSuccess e root p r bbox).loadedModel.map LoadedModel.position) =
      some e.currentTransform.position ∧
    (engineLoadSuccess e root p r bbox).cameraTarget = boxCenter bbox ∧
    (engineLoadSuccess e root p r bbox).loadingState = .loaded := by
  refine ⟨rfl, ?_, rfl, rfl⟩
  simp [engineLoadSuccess, fitModelInView, applyTransform,
    EngineState.setLoadingState]

/-- Claim C8: Format detection is first-match-wins in the order filename
suffix, declared MIME type (skipped for the unreliable generic types, with
`fbx`-substring → fbx and `gltf`/`glb`-substring → glb), magic-byte sniff
(`glTF` → glb, `Kaydara FBX Binary` → fbx, first non-whitespace byte a
left brace → gltf), otherwise unknown: `inferFileType` coincides with the
spec's priority-list chain on every input. In particular,
`getModelFileType` maps `model.glb` → glb, `MODEL.GLTF` → gltf,
`model.fbx` → fbx, `model.obj` → unknown, and `model.glb?version=1` →
unknown (the query string defeats the suffix match), and the three
magic-byte verdicts fire as specified, with the unreliable MIME type
`application/octet-stream` skipped in favor of content sniffing. -/
theorem detection_first_match_wins :
    (∀ (f m : Option String) (b : Option (List ℕ)),
      inferFileType f m b = detectChainSpec f m b) ∧
    getModelFileType "model.glb" = .glb ∧
    getModelFileType "MODEL.GLTF" = .gltf ∧
    getModelFileType "model.fbx" = .fbx ∧
    getModelFileType "model.obj" = .unknown ∧
    getModelFileType "model.glb?version=1" = .unknown ∧
    detectFileTypeFromContent [0x67, 0x6c, 0x54, 0x46, 0, 0, 0, 0] = .glb ∧
    detectFileTypeFromContent fbxMagicBytes = .fbx ∧
    detectFileTypeFromContent [32, 10, 123, 34, 97, 34] = .gltf ∧
    inferFileType none (some "model/gltf-binary") none = .glb ∧
    inferFileType none (some "application/fbx") none = .fbx ∧
    inferFileType none (some "application/octet-stream")
      (some [0x67, 0x6c, 0x54, 0x46]) = .glb := by
  refine ⟨?_, by decide, by decide, by decide, by decide, by decide, by decide,
    by decide, by decide, by decide, by decide, by decide⟩
  intro f m b
  rcases f with _ | fs <;> rcases m with _ | ms <;> rcases b with _ | bs <;>
    simp only [inferFileType, detectChainSpec, mimeDetectSpec, firstKnown,
      Option.map, Option.toList, List.nil_append, List.cons_append,
      List.append_nil] <;>
    repeat' (split <;> try simp_all [firstKnown])
